import Mathlib

/-!
Shallow embedding of the Appscrip Trade Opportunities API (src/main.py).

Timestamps (Python `time.time()`) are modelled as rationals.  The two
outbound collaborators (DuckDuckGo search, Gemini generative API) are
modelled by their observable outcomes: a search call either raises or
returns a list of result records; a Gemini call either raises or responds
with a status code and an optional extracted text (`None` models a
response body from which `data["candidates"][0]["content"]["parts"][0]["text"]`
cannot be extracted, which in the source raises inside the `try` block).
The in-memory per-IP rate state `ip_rates` is an association list from
client address to timestamp list, threaded explicitly through the handler.
-/

namespace TradeApi

/-- A DuckDuckGo result record `r`; `none` models an absent dictionary key,
matching the source's `r.get(...)` accesses. -/
structure SearchResult where
  title : Option String
  body : Option String
  href : Option String
  url : Option String
deriving DecidableEq

/-- Observable behaviour of one search-collaborator call
(`ddgs.text(...)` plus the iteration over its results). -/
inductive SearchOutcome where
  | raises
  | returns (results : List SearchResult)
deriving DecidableEq

/-- Observable behaviour of one Gemini call (`requests.post` plus
`response.json()` and the nested extraction). -/
inductive GeminiOutcome where
  | raises
  | responds (statusCode : Nat) (extracted : Option String)
deriving DecidableEq

/-- Python string slice `s[:n]`: the first `n` characters. -/
def pyTake (s : String) (n : Nat) : String := String.mk (s.toList.take n)

/-- Python `str.title()` restricted to ASCII letters: an alphabetic
character is uppercased after a non-alphabetic one and lowercased
otherwise. -/
def pyTitleAux : Bool → List Char → List Char
  | _, [] => []
  | prevCased, c :: cs =>
    let cased := c.isAlpha
    let c2 := if cased then (if prevCased then c.toLower else c.toUpper) else c
    c2 :: pyTitleAux cased cs

/-- Python `sector.title()` (ASCII). -/
def pyTitle (s : String) : String := String.mk (pyTitleAux false s.toList)

/-- Python `"\n".join(lines)`. -/
def joinLines : List String → String
  | [] => ""
  | [l] => l
  | l :: ls => l ++ "\n" ++ joinLines ls

/-- The query string built by `fetch_sector_news`. -/
def searchQuery (sector : String) : String :=
  sector ++ " India stock market news opportunities 2025"

/-- One bullet line of the digest:
`f"- {title} ({url})\n  {body[:200]}..."` with
`title = r.get("title", "")`, `body = r.get("body", "")`,
`url = r.get("href", r.get("url", ""))`. -/
def renderResult (r : SearchResult) : String :=
  "- " ++ r.title.getD "" ++ " (" ++ r.href.getD (r.url.getD "") ++ ")\n  "
    ++ pyTake (r.body.getD "") 200 ++ "..."

/-- The zero-results digest of `fetch_sector_news`. -/
def noResultsMsg (sector : String) : String :=
  "No recent results found for " ++ sector ++ " in India."

/-- The exception-path digest of `fetch_sector_news`. -/
def fetchErrorMsg (sector : String) : String :=
  "Could not fetch live market data for " ++ sector ++ " due to an error."

/-- The source's `fetch_sector_news(sector)` as a function of the search call's
observable outcome.  Everything from the `ddgs.text` call through the
bullet construction sits inside the `try`, so any raised exception lands
in the `except` branch. -/
def fetch_sector_news (sector : String) (outcome : SearchOutcome) : String :=
  match outcome with
  | .raises => fetchErrorMsg sector
  | .returns results =>
    let lines := results.map renderResult
    if lines.isEmpty then noResultsMsg sector
    else joinLines lines

/-- The Gemini prompt built in `analyze_sector`. -/
def buildPrompt (sector marketData : String) : String :=
  "Analyze this " ++ sector ++ " India market data for trade opportunities.\n\n"
    ++ "MARKET DATA:\n" ++ marketData ++ "\n\n"
    ++ "Generate a MARKDOWN report with these sections:\n"
    ++ "## Current Trends\n"
    ++ "## Buy Opportunities (specific stocks)\n"
    ++ "## Sell Risks\n"
    ++ "## Trade Summary (actionable today)\n\n"
    ++ "Keep it focused on Indian equities."

/-- The non-200-status fallback report (`# {sector.title()} Analysis Fallback ...`). -/
def fallbackReport (sector tstr : String) : String :=
  "# " ++ pyTitle sector ++ " Analysis Fallback\n\n"
    ++ "**Trends:** Market data unavailable\n"
    ++ "**Opportunities:** Check Nifty " ++ sector ++ " index\n"
    ++ "**Generated:** " ++ tstr

/-- The exception-path report (`# {sector.title()} Service Temporary Unavailable ...`). -/
def unavailableReport (sector tstr : String) : String :=
  "# " ++ pyTitle sector ++ " Service Temporary Unavailable\n\n"
    ++ "**Status:** AI analysis temporarily down.\n"
    ++ "**Manual check:** Search \x27" ++ sector ++ " India stock news\x27.\n"
    ++ "**Time:** " ++ tstr

/-- The `try/except` block of `analyze_sector` that produces `report`:
status 200 with extractable text yields that text; status 200 with a body
the nested indexing cannot destructure raises inside the `try`, landing in
the `except` branch; any non-200 status yields the fallback template; a
raised call yields the temporary-unavailable template. -/
def synthesizeReport (sector tstr : String) (g : GeminiOutcome) : String :=
  match g with
  | .raises => unavailableReport sector tstr
  | .responds statusCode extracted =>
    if statusCode = 200 then
      match extracted with
      | some text => text
      | none => unavailableReport sector tstr
    else fallbackReport sector tstr

/-- The `ip_rates` table: per-client-address timestamp lists. -/
abbrev RequestLog := List (String × List ℚ)

/-- Lookup `ip_rates.get(ip, [])`. -/
def lookupLog (st : RequestLog) (ip : String) : List ℚ :=
  match st.lookup ip with
  | some l => l
  | none => []

/-- Assignment `ip_rates[ip] = l`. -/
def setLog (st : RequestLog) (ip : String) (l : List ℚ) : RequestLog :=
  (ip, l) :: st.filter (fun p => p.1 != ip)

/-- The filter predicate `now - t < 300` of the sliding window. -/
def windowKeep (now t : ℚ) : Bool := decide (now - t < 300)

/-- The list stored after one admit evaluation:
`[t for t in ip_rates[ip] + [now] if now - t < 300]`
(the source first appends `now`, then filters). -/
def windowList (log : List ℚ) (now : ℚ) : List ℚ :=
  (log ++ [now]).filter (windowKeep now)

/-- The count `len(ip_rates[ip])` right after the append-and-filter step. -/
def usedCount (log : List ℚ) (now : ℚ) : Nat := (windowList log now).length

/-- Pydantic `SectorRequest`: `Field(..., min_length=2, max_length=50)`. -/
def validSector (sector : String) : Bool :=
  2 ≤ sector.length && sector.length ≤ 50

/-- Environment of one request: the two collaborators as functions of the
text they are sent, and the `time.strftime` string. -/
structure World where
  search : String → SearchOutcome
  gemini : String → GeminiOutcome
  timeStr : String

/-- Observable result of the `analyze_sector` handler: an
`HTTPException(status_code, detail)` or the success JSON envelope. -/
inductive EndpointResult where
  | httpError (statusCode : Nat) (detail : String)
  | success (sector report timestamp statusMsg : String)
      (requestsUsed : Nat) (limitRemaining : Int)
deriving DecidableEq

def EndpointResult.isSuccess : EndpointResult → Bool
  | .success .. => true
  | .httpError .. => false

def EndpointResult.statusCodeOf : EndpointResult → Option Nat
  | .httpError c _ => some c
  | .success .. => none

def EndpointResult.reportOf : EndpointResult → Option String
  | .success _ report _ _ _ _ => some report
  | .httpError .. => none

def EndpointResult.sectorOf : EndpointResult → Option String
  | .success sector _ _ _ _ _ => some sector
  | .httpError .. => none

def EndpointResult.requestsUsedOf : EndpointResult → Option Nat
  | .success _ _ _ _ u _ => some u
  | .httpError .. => none

def EndpointResult.limitRemainingOf : EndpointResult → Option Int
  | .success _ _ _ _ _ r => some r
  | .httpError .. => none

/-- The `/analyzesector` handler body: validate, append-and-filter the
per-IP window, admit-check, fetch news, call Gemini with its fallback
chain, assemble the envelope.  Returns the result together with the
post-request `ip_rates`.  The bearer `token` is received but never read. -/
def analyze_sector (st : RequestLog) (sector token ip : String) (now : ℚ)
    (w : World) : EndpointResult × RequestLog :=
  if validSector sector then
    let newLog := windowList (lookupLog st ip) now
    let st2 := setLog st ip newLog
    if 3 < newLog.length then
      (.httpError 429 "Rate limit: 3 requests / 5 min per IP", st2)
    else
      let marketData := fetch_sector_news sector (w.search (searchQuery sector))
      let report := synthesizeReport sector w.timeStr
        (w.gemini (buildPrompt sector marketData))
      (.success (pyTitle sector) report w.timeStr "analysis_complete"
        (lookupLog st2 ip).length ((3 : Int) - (lookupLog st2 ip).length), st2)
  else
    (.httpError 400 "Invalid sector name (2–50 characters).", st)

/-- A request environment whose collaborators both raise. -/
def wRaise : World :=
  { search := fun _ => .raises, gemini := fun _ => .raises, timeStr := "T" }

/-- A request environment with an empty search result and a 500 status. -/
def wErr : World :=
  { search := fun _ => .returns [], gemini := fun _ => .responds 500 none,
    timeStr := "U" }

/-- A request environment whose generative collaborator succeeds with a
fixed text. -/
def wSucc : World :=
  { search := fun _ => .returns [],
    gemini := fun _ => .responds 200 (some "## Current Trends"),
    timeStr := "T" }

/-! ### Helper lemmas -/

lemma lookup_setLog_self (st : RequestLog) (ip : String) (l : List ℚ) :
    lookupLog (setLog st ip l) ip = l := by
  simp [lookupLog, setLog, List.lookup]

lemma analyze_invalid (st : RequestLog) (sector token ip : String) (now : ℚ)
    (w : World) (hv : validSector sector = false) :
    analyze_sector st sector token ip now w =
      (.httpError 400 "Invalid sector name (2–50 characters).", st) := by
  simp [analyze_sector, hv]

lemma analyze_rejected (st : RequestLog) (sector token ip : String) (now : ℚ)
    (w : World) (hv : validSector sector = true)
    (hc : 3 < usedCount (lookupLog st ip) now) :
    analyze_sector st sector token ip now w =
      (.httpError 429 "Rate limit: 3 requests / 5 min per IP",
        setLog st ip (windowList (lookupLog st ip) now)) := by
  unfold usedCount at hc
  simp [analyze_sector, hv, hc]

lemma analyze_admitted (st : RequestLog) (sector token ip : String) (now : ℚ)
    (w : World) (hv : validSector sector = true)
    (hc : usedCount (lookupLog st ip) now ≤ 3) :
    analyze_sector st sector token ip now w =
      (.success (pyTitle sector)
        (synthesizeReport sector w.timeStr
          (w.gemini (buildPrompt sector
            (fetch_sector_news sector (w.search (searchQuery sector))))))
        w.timeStr "analysis_complete"
        (usedCount (lookupLog st ip) now)
        ((3 : Int) - (usedCount (lookupLog st ip) now)),
       setLog st ip (windowList (lookupLog st ip) now)) := by
  unfold usedCount at hc
  have hc2 : ¬ 3 < (windowList (lookupLog st ip) now).length := by omega
  simp [analyze_sector, hv, hc2, lookup_setLog_self, usedCount]

lemma length_append_pos_left (a b : String) (h : 0 < a.length) :
    0 < (a ++ b).length := by
  rw [String.length_append]; omega

lemma length_append_le_left (a b : String) : a.length ≤ (a ++ b).length := by
  rw [String.length_append]; omega

lemma ne_empty_of_length_pos (s : String) (h : 0 < s.length) : s ≠ "" := by
  intro he
  rw [he] at h
  simp at h

lemma renderResult_length_pos (r : SearchResult) :
    0 < (renderResult r).length := by
  unfold renderResult
  apply length_append_pos_left
  apply length_append_pos_left
  apply length_append_pos_left
  apply length_append_pos_left
  apply length_append_pos_left
  apply length_append_pos_left
  decide

lemma joinLines_length_ge (l : String) (ls : List String) :
    l.length ≤ (joinLines (l :: ls)).length := by
  cases ls with
  | nil => simp [joinLines]
  | cons l2 ls2 =>
      show l.length ≤ (l ++ "\n" ++ joinLines (l2 :: ls2)).length
      calc l.length ≤ (l ++ "\n").length := length_append_le_left _ _
        _ ≤ _ := length_append_le_left _ _

lemma validSector_iff (sector : String) :
    validSector sector = true ↔ 2 ≤ sector.length ∧ sector.length ≤ 50 := by
  simp [validSector]

lemma analyze_state_valid (st : RequestLog) (sector token ip : String)
    (now : ℚ) (w : World) (hv : validSector sector = true) :
    (analyze_sector st sector token ip now w).2 =
      setLog st ip (windowList (lookupLog st ip) now) := by
  by_cases hc : usedCount (lookupLog st ip) now ≤ 3
  · rw [analyze_admitted st sector token ip now w hv hc]
  · rw [analyze_rejected st sector token ip now w hv (by omega)]

lemma pyTake_length_le (s : String) (n : Nat) : (pyTake s n).length ≤ n := by
  show (s.toList.take n).length ≤ n
  rw [List.length_take]
  exact min_le_left _ _

/-! ### Claim theorems -/

/-- C3: for every sector string and every behaviour of the search
collaborator (raising, or returning any result list, including the empty
one), `fetch_sector_news` is a total function returning a non-empty digest
string, and on the exception path it returns exactly
`"Could not fetch live market data for {sector} due to an error."`. -/
theorem fetchDigest_never_raises (sector : String) (b : SearchOutcome) :
    fetch_sector_news sector b ≠ ""
    ∧ (b = .raises →
        fetch_sector_news sector b =
          "Could not fetch live market data for " ++ sector
            ++ " due to an error.") := by
  constructor
  · apply ne_empty_of_length_pos
    cases b with
    | raises =>
        show 0 < (fetchErrorMsg sector).length
        unfold fetchErrorMsg
        apply length_append_pos_left
        apply length_append_pos_left
        decide
    | returns rs =>
        cases rs with
        | nil =>
            show 0 < (noResultsMsg sector).length
            unfold noResultsMsg
            apply length_append_pos_left
            apply length_append_pos_left
            decide
        | cons r rs2 =>
            show 0 < (joinLines (renderResult r :: rs2.map renderResult)).length
            exact Nat.lt_of_lt_of_le (renderResult_length_pos r)
              (joinLines_length_ge _ _)
  · intro hb
    subst hb
    rfl

/-- Witness for C3 at sector `"tech"` and a raising collaborator. -/
theorem fetchDigest_never_raises_witness :
    fetch_sector_news "tech" .raises ≠ ""
    ∧ fetch_sector_news "tech" .raises =
        "Could not fetch live market data for " ++ "tech"
          ++ " due to an error." :=
  ⟨(fetchDigest_never_raises "tech" .raises).1,
   (fetchDigest_never_raises "tech" .raises).2 rfl⟩

/-- C2: report synthesis resolves to exactly one of three mutually
exclusive outcomes and never raises: success status yields the generated
text verbatim, a non-success status yields the Analysis Fallback template,
and a raised call or failed extraction yields the Service Temporary
Unavailable template; moreover, once validation and the rate-limit check
pass, the endpoint returns a success envelope. -/
theorem synthesizeReport_trichotomy (sector tstr : String) (g : GeminiOutcome)
    (st : RequestLog) (token ip : String) (now : ℚ) (w : World)
    (hv : validSector sector = true)
    (hc : usedCount (lookupLog st ip) now ≤ 3) :
    ((∃ t, g = .responds 200 (some t))
      ∨ (∃ s e, g = .responds s e ∧ s ≠ 200)
      ∨ g = .raises ∨ g = .responds 200 none)
    ∧ (∀ t, g = .responds 200 (some t) → synthesizeReport sector tstr g = t)
    ∧ (∀ s e, g = .responds s e → s ≠ 200 →
        synthesizeReport sector tstr g = fallbackReport sector tstr)
    ∧ (g = .raises ∨ g = .responds 200 none →
        synthesizeReport sector tstr g = unavailableReport sector tstr)
    ∧ (analyze_sector st sector token ip now w).1.isSuccess = true := by
  refine ⟨?_, ?_, ?_, ?_, ?_⟩
  · cases g with
    | raises => exact Or.inr (Or.inr (Or.inl rfl))
    | responds s e =>
        by_cases hs : s = 200
        · subst hs
          cases e with
          | none => exact Or.inr (Or.inr (Or.inr rfl))
          | some t => exact Or.inl ⟨t, rfl⟩
        · exact Or.inr (Or.inl ⟨s, e, rfl, hs⟩)
  · intro t ht
    subst ht
    rfl
  · intro s e he hs
    subst he
    simp [synthesizeReport, hs]
  · intro hg
    rcases hg with hg | hg <;> subst hg <;> rfl
  · rw [analyze_admitted st sector token ip now w hv hc]
    rfl

/-- Witness for C2: a success-status response passes through verbatim and
the admitted endpoint returns a success envelope. -/
theorem synthesizeReport_trichotomy_witness :
    synthesizeReport "tech" "T" (.responds 200 (some "R")) = "R"
    ∧ (analyze_sector [] "tech" "tok" "ip" 0 wRaise).1.isSuccess = true :=
  ⟨(synthesizeReport_trichotomy "tech" "T" (.responds 200 (some "R"))
      [] "tok" "ip" 0 wRaise (by decide)
      (by simp [usedCount, windowList, windowKeep, lookupLog])).2.1 "R" rfl,
   (synthesizeReport_trichotomy "tech" "T" (.responds 200 (some "R"))
      [] "tok" "ip" 0 wRaise (by decide)
      (by simp [usedCount, windowList, windowKeep, lookupLog])).2.2.2.2⟩

/-- C7: a sector string of length below 2 or above 50 is rejected with the
400 error while `ip_rates` is left untouched and no collaborator is
consulted (the outcome is independent of the collaborators); a sector
string of length 2 through 50 passes validation, so the request proceeds
to either a success envelope or the 429 rate-limit error. -/
theorem validation_gating (st : RequestLog) (sector token ip : String)
    (now : ℚ) (w w2 : World) :
    (¬ (2 ≤ sector.length ∧ sector.length ≤ 50) →
      (analyze_sector st sector token ip now w).1 =
          .httpError 400 "Invalid sector name (2–50 characters)."
        ∧ (analyze_sector st sector token ip now w).2 = st
        ∧ analyze_sector st sector token ip now w =
            analyze_sector st sector token ip now w2)
    ∧ ((2 ≤ sector.length ∧ sector.length ≤ 50) →
        (analyze_sector st sector token ip now w).1.isSuccess = true
          ∨ (analyze_sector st sector token ip now w).1 =
              .httpError 429 "Rate limit: 3 requests / 5 min per IP") := by
  constructor
  · intro h
    have hv : validSector sector = false := by
      rw [Bool.eq_false_iff]
      intro hvt
      exact h ((validSector_iff sector).mp hvt)
    rw [analyze_invalid st sector token ip now w hv,
      analyze_invalid st sector token ip now w2 hv]
    exact ⟨rfl, rfl, rfl⟩
  · intro h
    have hv : validSector sector = true := (validSector_iff sector).mpr h
    by_cases hc : usedCount (lookupLog st ip) now ≤ 3
    · left
      rw [analyze_admitted st sector token ip now w hv hc]
      rfl
    · right
      rw [analyze_rejected st sector token ip now w hv (by omega)]

/-- Witness for C7: the one-character sector `"x"` is rejected with the
400 error, leaves the state unchanged and ignores the collaborators; the
valid sector `"tech"` proceeds past validation. -/
theorem validation_gating_witness :
    ((analyze_sector [] "x" "tok" "ip" 0 wRaise).1 =
        .httpError 400 "Invalid sector name (2–50 characters)."
      ∧ (analyze_sector [] "x" "tok" "ip" 0 wRaise).2 = []
      ∧ analyze_sector [] "x" "tok" "ip" 0 wRaise =
          analyze_sector [] "x" "tok" "ip" 0 wErr)
    ∧ ((analyze_sector [] "tech" "tok" "ip" 0 wRaise).1.isSuccess = true
        ∨ (analyze_sector [] "tech" "tok" "ip" 0 wRaise).1 =
            .httpError 429 "Rate limit: 3 requests / 5 min per IP") :=
  ⟨(validation_gating [] "x" "tok" "ip" 0 wRaise wErr).1 (by decide),
   (validation_gating [] "tech" "tok" "ip" 0 wRaise wErr).2 (by decide)⟩

/-- C1: on every call the limiter appends `now` to the identifier's
timestamp sequence, keeps the timestamps `t` with `now - t < 300`, and
admits the request if and only if the resulting count is at most 3; an
admitted request reports `requests_used` equal to that count and
`limit_remaining` equal to `3 -` that count, while an over-limit request
gets the 429 error.  (`usedCount` is the length of the appended-and-
filtered sequence, exactly as computed by the handler.) -/
theorem rate_admit_rule (st : RequestLog) (sector token ip : String)
    (now : ℚ) (w : World) (hv : validSector sector = true) :
    ((analyze_sector st sector token ip now w).1.isSuccess = true
      ↔ usedCount (lookupLog st ip) now ≤ 3)
    ∧ (usedCount (lookupLog st ip) now ≤ 3 →
        (analyze_sector st sector token ip now w).1.requestsUsedOf =
            some (usedCount (lookupLog st ip) now)
          ∧ (analyze_sector st sector token ip now w).1.limitRemainingOf =
            some (3 - (usedCount (lookupLog st ip) now : Int)))
    ∧ (3 < usedCount (lookupLog st ip) now →
        (analyze_sector st sector token ip now w).1 =
          .httpError 429 "Rate limit: 3 requests / 5 min per IP") := by
  by_cases hc : usedCount (lookupLog st ip) now ≤ 3
  · rw [analyze_admitted st sector token ip now w hv hc]
    refine ⟨by simp [EndpointResult.isSuccess, hc], fun _ => ⟨rfl, rfl⟩,
      fun h => absurd hc (by omega)⟩
  · rw [analyze_rejected st sector token ip now w hv (by omega)]
    exact ⟨by simp [EndpointResult.isSuccess, hc], fun h => absurd h hc,
      fun _ => rfl⟩

/-- Witness for C1: four requests from one address at seconds 0, 2, 5, 8
(all within 10 seconds) yield `limit_remaining` 2, 1, 0 and then the 429
rejection, the intermediate states being exactly the stored windows. -/
theorem rate_admit_rule_witness :
    (analyze_sector [] "tech" "tok" "ip" 0 wRaise).1.limitRemainingOf = some 2
    ∧ (analyze_sector [] "tech" "tok" "ip" 0 wRaise).2 = [("ip", [0])]
    ∧ (analyze_sector [("ip", [0])] "tech" "tok" "ip" 2
        wRaise).1.limitRemainingOf = some 1
    ∧ (analyze_sector [("ip", [0])] "tech" "tok" "ip" 2 wRaise).2 =
        [("ip", [0, 2])]
    ∧ (analyze_sector [("ip", [0, 2])] "tech" "tok" "ip" 5
        wRaise).1.limitRemainingOf = some 0
    ∧ (analyze_sector [("ip", [0, 2])] "tech" "tok" "ip" 5 wRaise).2 =
        [("ip", [0, 2, 5])]
    ∧ (analyze_sector [("ip", [0, 2, 5])] "tech" "tok" "ip" 8 wRaise).1 =
        .httpError 429 "Rate limit: 3 requests / 5 min per IP" := by
  have c1 : usedCount (lookupLog [] "ip") 0 = 1 := by
    norm_num [usedCount, windowList, windowKeep, lookupLog, List.filter]
  have c2 : usedCount (lookupLog [("ip", [0])] "ip") 2 = 2 := by
    norm_num [usedCount, windowList, windowKeep, lookupLog, List.lookup,
      List.filter]
  have c3 : usedCount (lookupLog [("ip", [0, 2])] "ip") 5 = 3 := by
    norm_num [usedCount, windowList, windowKeep, lookupLog, List.lookup,
      List.filter]
  have c4 : usedCount (lookupLog [("ip", [0, 2, 5])] "ip") 8 = 4 := by
    norm_num [usedCount, windowList, windowKeep, lookupLog, List.lookup,
      List.filter]
  refine ⟨?_, ?_, ?_, ?_, ?_, ?_, ?_⟩
  · rw [((rate_admit_rule [] "tech" "tok" "ip" 0 wRaise (by decide)).2.1
      (by omega)).2, c1]
    norm_num
  · rw [analyze_state_valid [] "tech" "tok" "ip" 0 wRaise (by decide)]
    norm_num [setLog, windowList, windowKeep, lookupLog, List.filter]
  · rw [((rate_admit_rule [("ip", [0])] "tech" "tok" "ip" 2 wRaise
      (by decide)).2.1 (by omega)).2, c2]
    norm_num
  · rw [analyze_state_valid [("ip", [0])] "tech" "tok" "ip" 2 wRaise
      (by decide)]
    norm_num [setLog, windowList, windowKeep, lookupLog, List.lookup,
      List.filter]
  · rw [((rate_admit_rule [("ip", [0, 2])] "tech" "tok" "ip" 5 wRaise
      (by decide)).2.1 (by omega)).2, c3]
    norm_num
  · rw [analyze_state_valid [("ip", [0, 2])] "tech" "tok" "ip" 5 wRaise
      (by decide)]
    norm_num [setLog, windowList, windowKeep, lookupLog, List.lookup,
      List.filter]
  · exact (rate_admit_rule [("ip", [0, 2, 5])] "tech" "tok" "ip" 8 wRaise
      (by decide)).2.2 (by omega)

/-- C4: a request arriving more than 300 seconds after every timestamp
recorded for its identifier is admitted (whatever the earlier history,
including timestamps appended by rejected requests), and the stored
sequence afterwards holds exactly the new timestamp: all stale entries
are purged. -/
theorem readmission_after_window (st : RequestLog) (sector token ip : String)
    (now : ℚ) (w : World) (hv : validSector sector = true)
    (hstale : ∀ t ∈ lookupLog st ip, 300 < now - t) :
    (analyze_sector st sector token ip now w).1.isSuccess = true
    ∧ lookupLog (analyze_sector st sector token ip now w).2 ip = [now] := by
  have hself : windowKeep now now = true := by
    simp [windowKeep]
  have hw : windowList (lookupLog st ip) now = [now] := by
    unfold windowList
    rw [List.filter_append]
    have h1 : (lookupLog st ip).filter (windowKeep now) = [] := by
      rw [List.filter_eq_nil_iff]
      intro t ht
      have h300 := hstale t ht
      simp only [windowKeep, decide_eq_true_eq]
      intro hlt
      linarith
    rw [h1]
    simp [hself]
  have hc : usedCount (lookupLog st ip) now ≤ 3 := by
    rw [usedCount, hw]
    simp
  constructor
  · rw [analyze_admitted st sector token ip now w hv hc]
    rfl
  · rw [analyze_state_valid st sector token ip now w hv, lookup_setLog_self,
      hw]

/-- Witness for C4: the identifier has a single recorded timestamp 400
seconds old (say, from a rejected request); the new request is admitted
and the stale timestamp is purged. -/
theorem readmission_after_window_witness :
    (analyze_sector [("ip", [-400])] "tech" "tok" "ip" 0
        wRaise).1.isSuccess = true
    ∧ lookupLog (analyze_sector [("ip", [-400])] "tech" "tok" "ip" 0
        wRaise).2 "ip" = [0] :=
  readmission_after_window [("ip", [-400])] "tech" "tok" "ip" 0 wRaise
    (by decide)
    (by
      simp [lookupLog, List.lookup]
      norm_num)

/-- C5: immediately after every admit-check evaluation, every timestamp
stored for the identifier satisfies `now - t < 300`, the stored sequence
is a sublist of the previous sequence with `now` appended (so relative
insertion order is preserved), and chronological order is preserved. -/
theorem window_invariant (st : RequestLog) (sector token ip : String)
    (now : ℚ) (w : World) (hv : validSector sector = true) :
    (∀ t ∈ lookupLog (analyze_sector st sector token ip now w).2 ip,
        now - t < 300)
    ∧ List.Sublist (lookupLog (analyze_sector st sector token ip now w).2 ip)
        (lookupLog st ip ++ [now])
    ∧ (List.Sorted (· ≤ ·) (lookupLog st ip ++ [now]) →
        List.Sorted (· ≤ ·)
          (lookupLog (analyze_sector st sector token ip now w).2 ip)) := by
  rw [analyze_state_valid st sector token ip now w hv, lookup_setLog_self]
  refine ⟨?_, ?_, ?_⟩
  · intro t ht
    rw [windowList, List.mem_filter] at ht
    have := ht.2
    simpa [windowKeep] using this
  · exact List.filter_sublist _
  · intro hs
    exact hs.sublist (List.filter_sublist _)

/-- Witness for C5 on a state holding one stale and one fresh timestamp. -/
theorem window_invariant_witness :
    (∀ t ∈ lookupLog (analyze_sector [("ip", [-400, -10])] "tech" "tok" "ip" 0
        wRaise).2 "ip", (0 : ℚ) - t < 300)
    ∧ List.Sublist
        (lookupLog (analyze_sector [("ip", [-400, -10])] "tech" "tok" "ip" 0
          wRaise).2 "ip")
        (lookupLog [("ip", [-400, -10])] "ip" ++ [0])
    ∧ List.Sorted (· ≤ ·)
        (lookupLog (analyze_sector [("ip", [-400, -10])] "tech" "tok" "ip" 0
          wRaise).2 "ip") := by
  have h := window_invariant [("ip", [-400, -10])] "tech" "tok" "ip" 0 wRaise
    (by decide)
  refine ⟨h.1, h.2.1, h.2.2 ?_⟩
  simp [lookupLog, List.lookup, List.sorted_cons]
  norm_num

/-- C6: the digest renders each result as the bullet line
`"- {title} ({link})\n  {body}..."` where the link falls back from the
`href` field to the `url` field when `href` is absent and the body is
truncated to its first 200 characters before the ellipsis marker; bullets
are joined with newlines, one per result; an empty result list yields
exactly `"No recent results found for {sector} in India."`; and with the
requested cap of 8 results the digest has at most 8 bullet entries. -/
theorem digest_construction (sector : String) (rs : List SearchResult)
    (h8 : rs.length ≤ 8) :
    (rs = [] → fetch_sector_news sector (.returns rs) =
        "No recent results found for " ++ sector ++ " in India.")
    ∧ (rs ≠ [] → fetch_sector_news sector (.returns rs) =
        joinLines (rs.map renderResult))
    ∧ (rs.map renderResult).length = rs.length
    ∧ (rs.map renderResult).length ≤ 8
    ∧ (∀ r : SearchResult,
        renderResult r =
          "- " ++ r.title.getD "" ++ " ("
            ++ (match r.href with
                | some l => l
                | none => match r.url with
                  | some u => u
                  | none => "") ++ ")\n  "
            ++ pyTake (r.body.getD "") 200 ++ "..."
        ∧ (pyTake (r.body.getD "") 200).length ≤ 200) := by
  refine ⟨?_, ?_, List.length_map _ _, ?_, ?_⟩
  · intro h
    subst h
    rfl
  · intro h
    cases rs with
    | nil => exact absurd rfl h
    | cons r rs2 => rfl
  · rw [List.length_map]
    exact h8
  · intro r
    constructor
    · unfold renderResult
      cases hh : r.href with
      | some l => rfl
      | none =>
          cases hu : r.url with
          | some u => rfl
          | none => rfl
    · exact pyTake_length_le _ _

/-- Witness for C6 at one concrete result record (title `"T"`, body
`"B"`, absent `href`, `url` `"U"`). -/
theorem digest_construction_witness :
    fetch_sector_news "tech"
        (.returns [⟨some "T", some "B", none, some "U"⟩]) =
      joinLines
        ([(⟨some "T", some "B", none, some "U"⟩ : SearchResult)].map
          renderResult)
    ∧ ([(⟨some "T", some "B", none, some "U"⟩ : SearchResult)].map
        renderResult).length ≤ 8 :=
  ⟨(digest_construction "tech" [⟨some "T", some "B", none, some "U"⟩]
      (by decide)).2.1 (by decide),
   (digest_construction "tech" [⟨some "T", some "B", none, some "U"⟩]
      (by decide)).2.2.2.1⟩

/-- C8: on an admitted, validated request whose generative call responds
with status 200 and an extractable text, the response's `report` field is
that text verbatim and its `sector` field is the title-cased input sector;
in particular `"pharmaceuticals"` is rendered `"Pharmaceuticals"`. -/
theorem success_passthrough (st : RequestLog) (sector token ip : String)
    (now : ℚ) (w : World) (text : String)
    (hv : validSector sector = true)
    (hc : usedCount (lookupLog st ip) now ≤ 3)
    (hg : w.gemini (buildPrompt sector
        (fetch_sector_news sector (w.search (searchQuery sector)))) =
      .responds 200 (some text)) :
    (analyze_sector st sector token ip now w).1.reportOf = some text
    ∧ (analyze_sector st sector token ip now w).1.sectorOf =
        some (pyTitle sector)
    ∧ pyTitle "pharmaceuticals" = "Pharmaceuticals" := by
  rw [analyze_admitted st sector token ip now w hv hc]
  refine ⟨?_, rfl, by decide⟩
  show some (synthesizeReport sector w.timeStr (w.gemini (buildPrompt sector
    (fetch_sector_news sector (w.search (searchQuery sector)))))) = some text
  rw [hg]
  rfl

/-- Witness for C8: sector `"pharmaceuticals"`, a 200-status generative
response with body text `"## Current Trends"`. -/
theorem success_passthrough_witness :
    (analyze_sector [] "pharmaceuticals" "tok" "ip" 0 wSucc).1.reportOf =
        some "## Current Trends"
    ∧ (analyze_sector [] "pharmaceuticals" "tok" "ip" 0 wSucc).1.sectorOf =
        some (pyTitle "pharmaceuticals")
    ∧ pyTitle "pharmaceuticals" = "Pharmaceuticals" :=
  success_passthrough [] "pharmaceuticals" "tok" "ip" 0 wSucc
    "## Current Trends" (by decide)
    (by norm_num [usedCount, windowList, windowKeep, lookupLog, List.filter])
    rfl

/-- C10: a request rejected with the 429 error has already appended its
own timestamp to the identifier's stored sequence and the timestamp is
not removed on rejection; any later evaluation within 300 seconds of the
rejected request still counts that timestamp in its window. -/
theorem rejected_not_rolled_back (st : RequestLog) (sector token ip : String)
    (now : ℚ) (w : World) (hv : validSector sector = true)
    (hover : 3 < usedCount (lookupLog st ip) now) :
    (analyze_sector st sector token ip now w).1 =
        .httpError 429 "Rate limit: 3 requests / 5 min per IP"
    ∧ now ∈ lookupLog (analyze_sector st sector token ip now w).2 ip
    ∧ (∀ now2 : ℚ, now2 - now < 300 →
        now ∈ windowList
          (lookupLog (analyze_sector st sector token ip now w).2 ip) now2) := by
  have hself : now ∈ windowList (lookupLog st ip) now := by
    rw [windowList, List.mem_filter]
    constructor
    · exact List.mem_append_right _ (List.mem_singleton.mpr rfl)
    · simp [windowKeep]
  refine ⟨?_, ?_, ?_⟩
  · rw [analyze_rejected st sector token ip now w hv hover]
  · rw [analyze_state_valid st sector token ip now w hv, lookup_setLog_self]
    exact hself
  · intro now2 h2
    rw [analyze_state_valid st sector token ip now w hv, lookup_setLog_self]
    rw [windowList, List.mem_filter]
    constructor
    · exact List.mem_append_left _ hself
    · simpa [windowKeep] using h2

/-- Witness for C10: three recent timestamps plus the rejected request's
own; the rejected request's timestamp 1 stays stored and is still counted
one second later. -/
theorem rejected_not_rolled_back_witness :
    (analyze_sector [("ip", [0, 0, 0])] "tech" "tok" "ip" 1 wRaise).1 =
        .httpError 429 "Rate limit: 3 requests / 5 min per IP"
    ∧ (1 : ℚ) ∈ lookupLog
        (analyze_sector [("ip", [0, 0, 0])] "tech" "tok" "ip" 1 wRaise).2 "ip"
    ∧ (1 : ℚ) ∈ windowList
        (lookupLog
          (analyze_sector [("ip", [0, 0, 0])] "tech" "tok" "ip" 1 wRaise).2
          "ip") 2 := by
  have h := rejected_not_rolled_back [("ip", [0, 0, 0])] "tech" "tok" "ip" 1
    wRaise (by decide)
    (by norm_num [usedCount, windowList, windowKeep, lookupLog, List.lookup,
      List.filter])
  exact ⟨h.1, h.2.1, h.2.2 2 (by norm_num)⟩

/-- C9: the bearer token received by the handler is never read, so two
requests identical except for the token value produce identical results
and identical post-request state. -/
theorem token_noninterference (st : RequestLog) (sector ip : String)
    (now : ℚ) (w : World) (token1 token2 : String) :
    analyze_sector st sector token1 ip now w =
      analyze_sector st sector token2 ip now w := rfl

end TradeApi
